import Mathlib

/-!
Verification of the SCP platform authorization and workflow core.

The repository holds the mobile and web clients of a B2B ordering platform.
Pure business logic found in the clients (role helper predicates, the order
draft pricing, the delivery-method gate, the login error handling, the
consumer registration flow) is embedded directly from the TypeScript source.
The backend enforcement of the Link, Order and Complaint state machines is
not part of the repository sources; where a property depends on it, the
missing operation is modelled from the specification and marked as such in
its doc comment.
-/

namespace SCP

/-! ## Identity model (mobile/src/types/api.ts, web/src/context/AuthContext.tsx) -/

/-- Role of a staff membership entry, from the `SupplierRoleInfo.role` union
type in mobile/src/types/api.ts. -/
inductive SupplierRole where
  | OWNER
  | MANAGER
  | SALES
deriving DecidableEq, Repr

/-- Entry of `supplier_roles`, from `SupplierRoleInfo` in mobile/src/types/api.ts. -/
structure SupplierRoleInfo where
  supplier_id : Nat
  role : SupplierRole
deriving DecidableEq, Repr

/-- The only value of `global_role` other than null. -/
inductive GlobalRole where
  | PLATFORM_ADMIN
deriving DecidableEq, Repr

/-- The `main_role` union type from mobile/src/types/api.ts. -/
inductive MainRole where
  | PLATFORM_ADMIN
  | SUPPLIER_OWNER
  | SUPPLIER_MANAGER
  | SUPPLIER_SALES
  | CONSUMER
  | USER
deriving DecidableEq, Repr

/-- The `User` interface from mobile/src/types/api.ts (identical in
web/src/context/AuthContext.tsx). -/
structure User where
  id : Nat
  email : String
  full_name : String
  is_active : Bool
  global_role : Option GlobalRole
  supplier_roles : List SupplierRoleInfo
  consumer_id : Option Nat
  main_role : MainRole
deriving DecidableEq, Repr

/-! ## Role helper predicates (mobile/src/utils/roleHelpers.ts)
Each takes `User | null`, embedded as `Option User`. -/

/-- `isConsumer` from roleHelpers.ts: `user.consumer_id !== null || user.main_role === 'CONSUMER'`. -/
def isConsumer : Option User → Bool
  | none => false
  | some u => u.consumer_id.isSome || u.main_role == .CONSUMER

/-- `isSales` from roleHelpers.ts: `main_role === 'SUPPLIER_SALES'` or some
`supplier_roles` entry with role `SALES` (for any supplier). -/
def isSales : Option User → Bool
  | none => false
  | some u => u.main_role == .SUPPLIER_SALES || u.supplier_roles.any (fun r => r.role == .SALES)

/-- `isSupplierStaff` from roleHelpers.ts: `main_role.startsWith('SUPPLIER_')`
(that is, one of the three SUPPLIER constructors) or a non-empty `supplier_roles`. -/
def isSupplierStaff : Option User → Bool
  | none => false
  | some u =>
    (u.main_role == .SUPPLIER_OWNER || u.main_role == .SUPPLIER_MANAGER
      || u.main_role == .SUPPLIER_SALES)
    || !u.supplier_roles.isEmpty

/-- `isSupplierOwner` from roleHelpers.ts. -/
def isSupplierOwner : Option User → Bool
  | none => false
  | some u => u.main_role == .SUPPLIER_OWNER || u.supplier_roles.any (fun r => r.role == .OWNER)

/-- `isSupplierManager` from roleHelpers.ts. -/
def isSupplierManager : Option User → Bool
  | none => false
  | some u => u.main_role == .SUPPLIER_MANAGER || u.supplier_roles.any (fun r => r.role == .MANAGER)

/-- `isPlatformAdmin` from roleHelpers.ts. -/
def isPlatformAdmin : Option User → Bool
  | none => false
  | some u => u.global_role == some .PLATFORM_ADMIN || u.main_role == .PLATFORM_ADMIN

/-- `isManagerOrOwner` from web/src/pages/Complaints.tsx: checks only
`main_role`, with no supplier scoping. -/
def isManagerOrOwner : Option User → Bool
  | none => false
  | some u => u.main_role == .SUPPLIER_MANAGER || u.main_role == .SUPPLIER_OWNER

/-- `useHasSupplierRole` from web/src/context/AuthContext.tsx: finds the entry
for the exact `supplierId` and, when a role list is given, checks membership. -/
def useHasSupplierRole (user : Option User) (supplierId : Nat)
    (roles : Option (List SupplierRole)) : Bool :=
  match user with
  | none => false
  | some u =>
    match u.supplier_roles.find? (fun sr => sr.supplier_id == supplierId) with
    | none => false
    | some sr =>
      match roles with
      | none => true
      | some rs => rs.contains sr.role

/-- Membership of a given role for a given exact supplier in the user role
set; the property the spec demands of supplier-scoped capability checks. -/
def hasRoleAt (u : User) (supplierId : Nat) (r : SupplierRole) : Bool :=
  u.supplier_roles.any (fun e => e.supplier_id == supplierId && e.role == r)

/-! ## C2 -/

/-- A sales member of supplier 2 only. -/
def salesAtSupplier2 : User :=
  { id := 7, email := "sales@example.com", full_name := "Sales Two", is_active := true
    global_role := none, supplier_roles := [⟨2, .SALES⟩], consumer_id := none
    main_role := .SUPPLIER_SALES }

/-- C2 counterexample: the capability predicates of roleHelpers.ts take no
supplierId at all. For a check concerning supplier 1, `isSales` answers true
for a user whose only SALES membership is at supplier 2, although the user
holds no role whatsoever at supplier 1 — so the predicate does not return
true only when the role set holds the required role for that exact supplier. -/
theorem isSales_not_supplier_scoped :
    isSales (some salesAtSupplier2) = true
    ∧ salesAtSupplier2.supplier_roles.all (fun e => !(e.supplier_id == 1)) = true := by
  decide

/-- C2 (amended): only `useHasSupplierRole` is supplier-scoped — it answers
true only if `supplier_roles` holds an entry for that exact supplier whose
role is among the requested ones. The predicates `isSales`,
`isSupplierOwner`, `isSupplierManager` and the web `isManagerOrOwner` take
no supplierId: each answers true iff the user has the matching `main_role`
or holds the role at some (arbitrary) supplier. -/
theorem supplier_scoped_capability_checks :
    (∀ (u : User) (sid : Nat) (rs : List SupplierRole),
      useHasSupplierRole (some u) sid (some rs) = true →
      ∃ e ∈ u.supplier_roles, e.supplier_id = sid ∧ e.role ∈ rs)
    ∧ (∀ u : User, isSales (some u) = true ↔
        u.main_role = .SUPPLIER_SALES ∨ ∃ e ∈ u.supplier_roles, e.role = .SALES)
    ∧ (∀ u : User, isSupplierOwner (some u) = true ↔
        u.main_role = .SUPPLIER_OWNER ∨ ∃ e ∈ u.supplier_roles, e.role = .OWNER)
    ∧ (∀ u : User, isSupplierManager (some u) = true ↔
        u.main_role = .SUPPLIER_MANAGER ∨ ∃ e ∈ u.supplier_roles, e.role = .MANAGER)
    ∧ (∀ u : User, isManagerOrOwner (some u) = true ↔
        u.main_role = .SUPPLIER_MANAGER ∨ u.main_role = .SUPPLIER_OWNER) := by
  refine ⟨?_, ?_, ?_, ?_, ?_⟩
  · intro u sid rs h
    simp only [useHasSupplierRole] at h
    cases hfind : u.supplier_roles.find? (fun sr => sr.supplier_id == sid) with
    | none => rw [hfind] at h; exact absurd h (by simp)
    | some sr =>
      rw [hfind] at h
      have hmem := List.mem_of_find?_eq_some hfind
      have hsid := List.find?_some hfind
      refine ⟨sr, hmem, by simpa using hsid, ?_⟩
      have hc : rs.contains sr.role = true := h
      simpa using hc
  · intro u
    simp [isSales, List.any_eq_true]
  · intro u
    simp [isSupplierOwner, List.any_eq_true]
  · intro u
    simp [isSupplierManager, List.any_eq_true]
  · intro u
    simp [isManagerOrOwner]

/-- A manager of supplier 5. -/
def managerAtSupplier5 : User :=
  { id := 8, email := "mgr@example.com", full_name := "Manager Five", is_active := true
    global_role := none, supplier_roles := [⟨5, .MANAGER⟩], consumer_id := none
    main_role := .SUPPLIER_MANAGER }

/-- Witness for the supplier-scoped check: a manager of supplier 5 passing the
scoped check for supplier 5 indeed holds an entry for that exact supplier. -/
theorem supplier_scoped_capability_checks_witness :
    ∃ e ∈ managerAtSupplier5.supplier_roles,
      e.supplier_id = 5 ∧ e.role ∈ [SupplierRole.MANAGER, SupplierRole.OWNER] :=
  supplier_scoped_capability_checks.1 managerAtSupplier5 5
    [SupplierRole.MANAGER, SupplierRole.OWNER] (by decide)

/-! ## Complaint state machine

The enforcement lives in the backend complaints router, which is not among
the repository sources (the clients only call `POST /complaints/{id}/status`
through mobile/src/api/complaints.ts); it is modelled from the spec below. -/

/-- The `ComplaintStatus` union type from mobile/src/types/api.ts. -/
inductive ComplaintStatus where
  | open_
  | in_progress
  | resolved
  | escalated
deriving DecidableEq, Repr

/-- Error kinds of the core relevant to the modelled transitions (spec section 7). -/
inductive TransitionError where
  | Forbidden
  | InvalidTransition
  | DuplicateLink
deriving DecidableEq, Repr

/-- Modelled from the spec: the edges of the complaint state machine of
section 4.4 (`open → in_progress → {resolved, escalated}`,
`escalated → resolved`, `resolved` terminal); the backend complaints router
is missing from the sources. -/
def complaintEdgeAllowed : ComplaintStatus → ComplaintStatus → Bool
  | .open_, .in_progress => true
  | .in_progress, .resolved => true
  | .in_progress, .escalated => true
  | .escalated, .resolved => true
  | _, _ => false

/-- Modelled from the spec: the role (at the complaint supplier) each edge of
section 4.4 demands — SALES for `open→in_progress`, `in_progress→resolved`
and `in_progress→escalated`, MANAGER or OWNER for `escalated→resolved`. -/
def complaintEdgePermitted (actorRole : Option SupplierRole) :
    ComplaintStatus → ComplaintStatus → Bool
  | .open_, .in_progress => actorRole == some .SALES
  | .in_progress, .resolved => actorRole == some .SALES
  | .in_progress, .escalated => actorRole == some .SALES
  | .escalated, .resolved => actorRole == some .MANAGER || actorRole == some .OWNER
  | _, _ => false

/-- Modelled from the spec: the backend `POST /complaints/{id}/status`
operation of section 4.4, missing from the sources. `actorRole` is the
staff role the actor holds at the complaint supplier (`none` for a consumer
or unrelated actor). A skipped state fails with `InvalidTransition`; a
legal edge by the wrong role fails with `Forbidden`. -/
def updateComplaintStatus (actorRole : Option SupplierRole)
    (cur newStatus : ComplaintStatus) : Except TransitionError ComplaintStatus :=
  if complaintEdgeAllowed cur newStatus = false then .error .InvalidTransition
  else if complaintEdgePermitted actorRole cur newStatus then .ok newStatus
  else .error .Forbidden

/-! ## C1 -/

/-- C1: no actor can move a complaint from `open` straight to `resolved`, nor
from `open` to `escalated`: both attempts fail with `InvalidTransition`
whatever role the actor holds, so `resolved` is only reachable from `open`
through the `in_progress` gate. -/
theorem open_complaint_cannot_skip_in_progress :
    ∀ actorRole : Option SupplierRole,
      updateComplaintStatus actorRole .open_ .resolved = .error .InvalidTransition
      ∧ updateComplaintStatus actorRole .open_ .escalated = .error .InvalidTransition := by
  intro actorRole
  exact ⟨rfl, rfl⟩

/-! ## C7 -/

/-- C7: `escalated→resolved` is for MANAGER or OWNER only — the SALES attempt
is rejected with `Forbidden` while the same call by OWNER (or MANAGER)
succeeds — and `in_progress→resolved` succeeds exactly for SALES staff. -/
theorem escalated_resolution_requires_manager_or_owner :
    updateComplaintStatus (some .SALES) .escalated .resolved = .error .Forbidden
    ∧ updateComplaintStatus (some .OWNER) .escalated .resolved = .ok .resolved
    ∧ updateComplaintStatus (some .MANAGER) .escalated .resolved = .ok .resolved
    ∧ (∀ actorRole : Option SupplierRole,
        updateComplaintStatus actorRole .in_progress .resolved = .ok .resolved
          ↔ actorRole = some .SALES) := by
  refine ⟨rfl, rfl, rfl, ?_⟩
  intro actorRole
  cases actorRole with
  | none => simp [updateComplaintStatus, complaintEdgeAllowed, complaintEdgePermitted]
  | some r =>
    cases r <;>
      simp [updateComplaintStatus, complaintEdgeAllowed, complaintEdgePermitted]

/-- Witness: a SALES attempt at `open → resolved` concretely fails with
`InvalidTransition`. -/
theorem open_complaint_cannot_skip_in_progress_witness :
    updateComplaintStatus (some .SALES) .open_ .resolved = .error .InvalidTransition :=
  (open_complaint_cannot_skip_in_progress (some .SALES)).1

/-- Witness: SALES staff concretely resolves an in-progress complaint. -/
theorem escalated_resolution_requires_manager_or_owner_witness :
    updateComplaintStatus (some .SALES) .in_progress .resolved = .ok .resolved :=
  (escalated_resolution_requires_manager_or_owner.2.2.2 (some .SALES)).mpr rfl

/-! ## Link state machine

`LinkStatus` and `Link` follow mobile/src/types/api.ts; the status-update
and creation enforcement lives in the backend links router, which is not
among the repository sources (mobile/src/api/links.ts and the screens only
call it), and is modelled from the spec. -/

/-- The `LinkStatus` union type from mobile/src/types/api.ts. -/
inductive LinkStatus where
  | pending
  | accepted
  | blocked
  | removed
deriving DecidableEq, Repr

/-- The `Link` interface from mobile/src/types/api.ts (timestamps and display
names omitted). -/
structure Link where
  id : Nat
  supplier_id : Nat
  consumer_id : Nat
  status : LinkStatus
  requested_by : Nat
deriving DecidableEq, Repr

/-- OWNER or MANAGER membership at the given supplier. -/
def isOwnerOrManagerAt (u : User) (supplierId : Nat) : Bool :=
  hasRoleAt u supplierId .OWNER || hasRoleAt u supplierId .MANAGER

/-- Modelled from the spec: the backend `POST /links/{id}/status` operation of
section 4.2, missing from the sources. Supplier OWNER or MANAGER of the
target supplier may do `pending→accepted`, `pending→blocked`,
`accepted→blocked`; the consumer who owns the Link may do
`accepted→removed` only; any other actor is denied with `Forbidden`;
edges outside the machine fail with `InvalidTransition`. -/
def updateLinkStatus (actor : User) (link : Link) (newStatus : LinkStatus) :
    Except TransitionError Link :=
  match link.status, newStatus with
  | .pending, .accepted =>
    if isOwnerOrManagerAt actor link.supplier_id then .ok { link with status := .accepted }
    else .error .Forbidden
  | .pending, .blocked =>
    if isOwnerOrManagerAt actor link.supplier_id then .ok { link with status := .blocked }
    else .error .Forbidden
  | .accepted, .blocked =>
    if isOwnerOrManagerAt actor link.supplier_id then .ok { link with status := .blocked }
    else .error .Forbidden
  | .accepted, .removed =>
    if actor.consumer_id == some link.consumer_id then .ok { link with status := .removed }
    else .error .Forbidden
  | _, _ => .error .InvalidTransition

/-! ## C4 -/

/-- C4: on the three staff edges (`pending→accepted`, `pending→blocked`,
`accepted→blocked`) the update succeeds exactly when the actor is an OWNER
or MANAGER of the target supplier, and is otherwise denied with
`Forbidden`; on `accepted→removed` it succeeds exactly when the actor is
the consumer who owns the Link, and is otherwise denied with `Forbidden`.
In particular the owning consumer can perform no transition but
`accepted→removed`. -/
theorem link_transition_authorization :
    ∀ (actor : User) (link : Link) (ns : LinkStatus),
      ((link.status = .pending ∧ (ns = .accepted ∨ ns = .blocked))
          ∨ (link.status = .accepted ∧ ns = .blocked) →
        (updateLinkStatus actor link ns = .ok { link with status := ns }
            ↔ isOwnerOrManagerAt actor link.supplier_id = true)
        ∧ (isOwnerOrManagerAt actor link.supplier_id = false →
            updateLinkStatus actor link ns = .error .Forbidden))
      ∧ (link.status = .accepted ∧ ns = .removed →
        (updateLinkStatus actor link ns = .ok { link with status := ns }
            ↔ actor.consumer_id = some link.consumer_id)
        ∧ (actor.consumer_id ≠ some link.consumer_id →
            updateLinkStatus actor link ns = .error .Forbidden)) := by
  intro actor link ns
  constructor
  · rintro (⟨hcur, hns | hns⟩ | ⟨hcur, hns⟩) <;> subst hns <;>
      refine ⟨?_, fun hno => by simp [updateLinkStatus, hcur, hno]⟩ <;>
      simp only [updateLinkStatus, hcur] <;>
      cases h : isOwnerOrManagerAt actor link.supplier_id <;> simp [h]
  · rintro ⟨hcur, hns⟩
    subst hns
    refine ⟨?_, fun hno => by simp [updateLinkStatus, hcur, hno]⟩
    simp only [updateLinkStatus, hcur]
    by_cases h : actor.consumer_id = some link.consumer_id <;> simp [h]

/-- An owner of supplier 3. -/
def ownerAtSupplier3 : User :=
  { id := 11, email := "owner@example.com", full_name := "Owner Three", is_active := true
    global_role := none, supplier_roles := [⟨3, .OWNER⟩], consumer_id := none
    main_role := .SUPPLIER_OWNER }

/-- A pending link between supplier 3 and consumer 12. -/
def pendingLink3 : Link :=
  { id := 21, supplier_id := 3, consumer_id := 12, status := .pending, requested_by := 40 }

/-- Witness: the owner of supplier 3 accepts a pending link of that supplier. -/
theorem link_transition_authorization_witness :
    updateLinkStatus ownerAtSupplier3 pendingLink3 .accepted
      = .ok { pendingLink3 with status := .accepted } :=
  ((link_transition_authorization ownerAtSupplier3 pendingLink3 .accepted).1
    (Or.inl ⟨rfl, Or.inl rfl⟩)).1.mpr (by decide)

/-! ## C5 — link request creation and the client-side re-request gate -/

/-- Modelled from the spec: the backend `POST /links` creation of sections 3
and 4.2, missing from the sources — a pending Link is created unless a
non-removed Link already exists for the (supplierId, consumerId) pair, in
which case the request fails with `DuplicateLink`. -/
def createLink (links : List Link) (consumerId supplierId newId requestedBy : Nat) :
    Except TransitionError Link :=
  if links.any (fun l =>
      l.supplier_id == supplierId && l.consumer_id == consumerId && !(l.status == .removed))
  then .error .DuplicateLink
  else .ok { id := newId, supplier_id := supplierId, consumer_id := consumerId
             status := .pending, requested_by := requestedBy }

/-- The `existingLink` lookup of mobile/src/screens/LinksScreen.tsx:
`links.find((link) => link.supplier_id === supplier.id)` — any status,
`removed` included. -/
def existingLinkFor (links : List Link) (supplierId : Nat) : Option Link :=
  links.find? (fun l => l.supplier_id == supplierId)

/-- The supplier option gate of mobile/src/screens/LinksScreen.tsx: the option
is selectable (`disabled={!!existingLink}` false, `onPress` effective) only
when no link row for the supplier exists in the loaded list. -/
def canSelectSupplier (links : List Link) (supplierId : Nat) : Bool :=
  (existingLinkFor links supplierId).isNone

/-- A removed link between supplier 1 and consumer 4. -/
def removedLink1 : Link :=
  { id := 31, supplier_id := 1, consumer_id := 4, status := .removed, requested_by := 4 }

/-- C5 counterexample: a pair whose only Link is `removed` can NOT be
re-requested through the mobile Links screen — the screen disables the
supplier option whenever any link row exists, whatever its status, so the
claimed re-request of a removed pair is blocked by the client even though
the modelled backend creation would accept it. -/
theorem removed_pair_rerequest_blocked :
    removedLink1.status = .removed
    ∧ canSelectSupplier [removedLink1] 1 = false
    ∧ createLink [removedLink1] 4 1 32 4
        = .ok { id := 32, supplier_id := 1, consumer_id := 4
                status := .pending, requested_by := 4 } := by
  refine ⟨rfl, rfl, ?_⟩
  rfl

/-- C5 (amended): link creation fails with `DuplicateLink` exactly when a
non-removed Link already exists for the (supplierId, consumerId) pair and
creates a `pending` Link otherwise — so at most one non-removed Link per
pair can come into being — but the mobile Links screen lets a consumer
initiate a request only for a supplier with no existing Link row of any
status: a pair whose only Link is `removed` cannot be re-requested from
that screen. -/
theorem link_request_duplicate_policy :
    (∀ (links : List Link) (cid sid newId reqBy : Nat),
      (createLink links cid sid newId reqBy = .error .DuplicateLink ↔
        ∃ l ∈ links, l.supplier_id = sid ∧ l.consumer_id = cid ∧ l.status ≠ .removed)
      ∧ ((∀ l ∈ links, ¬(l.supplier_id = sid ∧ l.consumer_id = cid ∧ l.status ≠ .removed)) →
        createLink links cid sid newId reqBy
          = .ok { id := newId, supplier_id := sid, consumer_id := cid
                  status := .pending, requested_by := reqBy }))
    ∧ (∀ (links : List Link) (sid : Nat),
      canSelectSupplier links sid = true ↔ ∀ l ∈ links, l.supplier_id ≠ sid) := by
  constructor
  · intro links cid sid newId reqBy
    have hchar : (links.any (fun l =>
        l.supplier_id == sid && l.consumer_id == cid && !(l.status == .removed))) = true ↔
        ∃ l ∈ links, l.supplier_id = sid ∧ l.consumer_id = cid ∧ l.status ≠ .removed := by
      simp [List.any_eq_true, and_assoc]
    constructor
    · unfold createLink
      by_cases hdup : (links.any (fun l =>
          l.supplier_id == sid && l.consumer_id == cid && !(l.status == .removed))) = true
      · rw [if_pos hdup]
        exact iff_of_true rfl (hchar.mp hdup)
      · rw [if_neg hdup]
        exact iff_of_false (by simp) (fun hx => hdup (hchar.mpr hx))
    · intro hnone
      unfold createLink
      have hno : ¬ ((links.any (fun l =>
          l.supplier_id == sid && l.consumer_id == cid && !(l.status == .removed))) = true) := by
        intro hdup
        obtain ⟨l, hl, hx⟩ := hchar.mp hdup
        exact hnone l hl hx
      rw [if_neg hno]
  · intro links sid
    simp [canSelectSupplier, existingLinkFor, Option.isNone_iff_eq_none, List.find?_eq_none]

/-- Witness: a request for a fresh pair (no links at all) creates the pending link. -/
theorem link_request_duplicate_policy_witness :
    createLink [] 4 1 32 4
      = .ok { id := 32, supplier_id := 1, consumer_id := 4
              status := .pending, requested_by := 4 } :=
  (link_request_duplicate_policy.1 [] 4 1 32 4).2 (by simp)

/-! ## Products and order drafting (mobile/src/screens/CatalogScreen.tsx)

Decimal strings (`price`, `discount`) are parsed with `parseFloat` before any
arithmetic in the screen; they are embedded as rationals. -/

/-- The two values of `deliveryMethod` in CatalogScreen.tsx. -/
inductive DeliveryMethod where
  | delivery
  | pickup
deriving DecidableEq, Repr

/-- The `Product` interface from mobile/src/types/api.ts (description,
timestamps and lead time omitted; `discount: string | null` as `Option Rat`). -/
structure Product where
  id : Nat
  supplier_id : Nat
  name : String
  unit : String
  price : Rat
  discount : Option Rat
  stock : Nat
  min_order_quantity : Nat
  delivery_available : Bool
  pickup_available : Bool
  is_active : Bool
deriving DecidableEq, Repr

/-- The `DraftOrderItem` interface of CatalogScreen.tsx. -/
structure DraftOrderItem where
  product_id : Nat
  product_name : String
  quantity : Int
  unit_price : Rat
deriving DecidableEq, Repr

/-- The selected-product lookup of `handleCreateOrder` in CatalogScreen.tsx:
`Array.from(draftOrder.keys()).map(id => products.find(p => p.id === id)).filter(Boolean)`. -/
def selectedProducts (draft : List DraftOrderItem) (products : List Product) : List Product :=
  (draft.map (fun it => products.find? (fun p => p.id == it.product_id))).filterMap id

/-- The `requiresDeliveryMethod` check of `handleCreateOrder` in
CatalogScreen.tsx: some selected product has exactly one of the two
availability flags set. -/
def requiresDeliveryMethod (selected : List Product) : Bool :=
  selected.any (fun p =>
    (p.delivery_available && !p.pickup_available)
    || (!p.delivery_available && p.pickup_available))

/-- The delivery-method gate of `handleCreateOrder` in CatalogScreen.tsx: the
submission is blocked (`requiresDeliveryMethod && !deliveryMethod`) exactly
when a method is demanded and none is chosen; it passes otherwise. -/
def deliveryMethodCheckPasses (selected : List Product) (dm : Option DeliveryMethod) : Bool :=
  !(requiresDeliveryMethod selected && dm.isNone)

/-- A product only available for delivery. -/
def deliveryOnlyProduct : Product :=
  { id := 101, supplier_id := 3, name := "Flour", unit := "kg", price := 5
    discount := none, stock := 50, min_order_quantity := 2
    delivery_available := true, pickup_available := false, is_active := true }

/-- A product only available for pickup. -/
def pickupOnlyProduct : Product :=
  { id := 102, supplier_id := 3, name := "Milk", unit := "l", price := 3
    discount := none, stock := 40, min_order_quantity := 1
    delivery_available := false, pickup_available := true, is_active := true }

/-- A product with neither availability flag set. -/
def neitherMethodProduct : Product :=
  { id := 103, supplier_id := 3, name := "Salt", unit := "kg", price := 1
    discount := none, stock := 10, min_order_quantity := 1
    delivery_available := false, pickup_available := false, is_active := true }

/-- C3 counterexample: with a delivery-only and a pickup-only product in the
cart — flags far from uniformly both-true — choosing `delivery` passes the
creation gate although delivery is not available for the pickup-only
product, so no method compatible with every product is enforced; and for a
product with both flags false (also not uniformly both-true) the gate
passes with no method supplied at all. -/
theorem incompatible_delivery_method_accepted :
    deliveryMethodCheckPasses [deliveryOnlyProduct, pickupOnlyProduct]
        (some .delivery) = true
    ∧ pickupOnlyProduct.delivery_available = false
    ∧ deliveryMethodCheckPasses [neitherMethodProduct] none = true
    ∧ neitherMethodProduct.delivery_available = false
    ∧ neitherMethodProduct.pickup_available = false := by
  decide

/-- C3 (amended): the creation gate demands some delivery method exactly when
a selected product offers exactly one of delivery/pickup: it passes iff a
method is chosen or every selected product has its two availability flags
equal (both true, or both false); the chosen method is never checked for
compatibility with the individual products. -/
theorem delivery_method_requirement :
    ∀ (selected : List Product) (dm : Option DeliveryMethod),
      deliveryMethodCheckPasses selected dm = true ↔
        (dm.isSome = true ∨ ∀ p ∈ selected, p.delivery_available = p.pickup_available) := by
  intro selected dm
  unfold deliveryMethodCheckPasses requiresDeliveryMethod
  cases dm with
  | some m => simp
  | none =>
    simp only [Option.isNone_none, Bool.and_true, Bool.not_eq_true', Option.isSome_none,
      false_or, List.any_eq_false]
    constructor
    · intro h
      refine Or.inr ?_
      intro p hp
      have hb := h p hp
      cases hd : p.delivery_available <;> cases hpk : p.pickup_available <;> simp_all
    · rintro (h | h)
      · exact absurd h (by simp)
      · intro p hp
        have hb := h p hp
        cases hd : p.delivery_available <;> cases hpk : p.pickup_available <;> simp_all

/-- Witness: with a delivery-only product in the cart and `pickup` chosen, the
gate concretely passes. -/
theorem delivery_method_requirement_witness :
    deliveryMethodCheckPasses [deliveryOnlyProduct] (some .pickup) = true :=
  (delivery_method_requirement [deliveryOnlyProduct] (some .pickup)).mpr (Or.inl rfl)

/-! ## C8 — unit price snapshot and draft total (CatalogScreen.tsx) -/

/-- The `minQuantity` fallback `product.min_order_quantity || 1` of
CatalogScreen.tsx (JavaScript `||`: a zero minimum falls back to 1). -/
def effectiveMinQuantity (p : Product) : Nat :=
  if p.min_order_quantity = 0 then 1 else p.min_order_quantity

/-- The final price computation of `handleQuantityChange` (and of the product
card rendering) in CatalogScreen.tsx:
`discount > 0 ? unitPrice * (1 - discount / 100) : unitPrice`, with a
missing discount read as 0. -/
def computeFinalPrice (price : Rat) (discount : Option Rat) : Rat :=
  let d := discount.getD 0
  if 0 < d then price * (1 - d / 100) else price

/-- `newDraft.delete(product.id)` on the draft map, keyed by product id. -/
def eraseDraft (draft : List DraftOrderItem) (productId : Nat) : List DraftOrderItem :=
  draft.filter (fun it => !(it.product_id == productId))

/-- `newDraft.set(product.id, item)` on the draft map: the entry for the key
is replaced (the map holds at most one entry per product id). -/
def setDraft (draft : List DraftOrderItem) (item : DraftOrderItem) : List DraftOrderItem :=
  eraseDraft draft item.product_id ++ [item]

/-- `handleQuantityChange` from CatalogScreen.tsx: negative quantities are
ignored, a positive quantity below the minimum is refused (alert), zero
removes the entry, and otherwise the entry is stored with the snapshotted
`unit_price` computed from the product price and discount. -/
def handleQuantityChange (p : Product) (quantity : Int)
    (draft : List DraftOrderItem) : List DraftOrderItem :=
  if quantity < 0 then draft
  else if 0 < quantity ∧ quantity < (effectiveMinQuantity p : Int) then draft
  else if quantity = 0 then eraseDraft draft p.id
  else setDraft draft
    { product_id := p.id, product_name := p.name, quantity := quantity
      unit_price := computeFinalPrice p.price p.discount }

/-- `getDraftTotal` from CatalogScreen.tsx: a running accumulation of
`unit_price * quantity` over the draft entries. -/
def getDraftTotal (draft : List DraftOrderItem) : Rat :=
  draft.foldl (fun total it => total + it.unit_price * (it.quantity : Rat)) 0

/-- The accumulating fold of `getDraftTotal` equals the initial value plus the
sum of the per-item amounts. -/
theorem foldl_draftTotal_eq (draft : List DraftOrderItem) :
    ∀ a : Rat,
      draft.foldl (fun total it => total + it.unit_price * (it.quantity : Rat)) a
        = a + (draft.map (fun it => it.unit_price * (it.quantity : Rat))).sum := by
  induction draft with
  | nil => intro a; simp
  | cons it rest ih =>
    intro a
    simp only [List.foldl_cons, List.map_cons, List.sum_cons]
    rw [ih]
    ring

/-- C8: the snapshotted `unit_price` of a draft item equals
`price * (1 - discount / 100)` when a (non-negative) discount is present
and `price` otherwise; a quantity change at or above the minimum stores
exactly that snapshot; and the draft total is the sum of
`unit_price * quantity` over the items. -/
theorem order_pricing_formulas :
    (∀ (price d : Rat), 0 ≤ d →
      computeFinalPrice price (some d) = price * (1 - d / 100))
    ∧ (∀ price : Rat, computeFinalPrice price none = price)
    ∧ (∀ (p : Product) (q : Int) (draft : List DraftOrderItem),
        (effectiveMinQuantity p : Int) ≤ q →
        { product_id := p.id, product_name := p.name, quantity := q
          unit_price := computeFinalPrice p.price p.discount : DraftOrderItem }
          ∈ handleQuantityChange p q draft)
    ∧ (∀ draft : List DraftOrderItem,
        getDraftTotal draft
          = (draft.map (fun it => it.unit_price * (it.quantity : Rat))).sum) := by
  refine ⟨?_, ?_, ?_, ?_⟩
  · intro price d hd
    unfold computeFinalPrice
    rcases lt_or_eq_of_le hd with h | h
    · simp [h]
    · simp [← h]
  · intro price
    simp [computeFinalPrice]
  · intro p q draft hq
    have hmin : (1 : Int) ≤ (effectiveMinQuantity p : Int) := by
      unfold effectiveMinQuantity
      split <;> omega
    unfold handleQuantityChange
    rw [if_neg (by omega), if_neg (by omega), if_neg (by omega)]
    unfold setDraft
    exact List.mem_append_right _ (List.mem_singleton.mpr rfl)
  · intro draft
    unfold getDraftTotal
    rw [foldl_draftTotal_eq]
    ring

/-- A discounted product used to witness the pricing formulas. -/
def discountedProduct : Product :=
  { id := 104, supplier_id := 3, name := "Rice", unit := "kg", price := 8
    discount := some 25, stock := 30, min_order_quantity := 2
    delivery_available := true, pickup_available := true, is_active := true }

/-- Witness: a product priced 10 with a 25 percent discount snapshots a unit
price of 7.5, and a quantity change to the minimum on an empty draft stores
the snapshot for the discounted product. -/
theorem order_pricing_formulas_witness :
    computeFinalPrice 10 (some 25) = 10 * (1 - 25 / 100)
    ∧ { product_id := 104, product_name := "Rice", quantity := 2
        unit_price := computeFinalPrice 8 (some 25) : DraftOrderItem }
        ∈ handleQuantityChange discountedProduct 2 [] :=
  ⟨order_pricing_formulas.1 10 25 (by norm_num),
    order_pricing_formulas.2.2.1 discountedProduct 2 [] (by decide)⟩

/-! ## C6 — effective role derivation -/

/-- Modelled from the spec: the backend derivation of `main_role` (the
`effectiveRole` of section 4.1), computed server-side in the missing
backend schemas and only consumed by the clients — priority order
PLATFORM_ADMIN, then SUPPLIER_OWNER, SUPPLIER_MANAGER, SUPPLIER_SALES,
then CONSUMER, else USER; first match wins. -/
def computeMainRole (globalRole : Option GlobalRole)
    (supplierRoles : List SupplierRoleInfo) (consumerId : Option Nat) : MainRole :=
  if globalRole = some .PLATFORM_ADMIN then .PLATFORM_ADMIN
  else if supplierRoles.any (fun e => e.role == .OWNER) then .SUPPLIER_OWNER
  else if supplierRoles.any (fun e => e.role == .MANAGER) then .SUPPLIER_MANAGER
  else if supplierRoles.any (fun e => e.role == .SALES) then .SUPPLIER_SALES
  else if consumerId.isSome then .CONSUMER
  else .USER

/-- C6: `computeMainRole` is a pure function of (globalRole, supplierRoles,
consumerId) that realises the priority order of section 4.1 — each output
is characterised by its priority level — and in particular a user holding
both a consumer id and a SALES supplier role gets SUPPLIER_SALES, not
CONSUMER. -/
theorem effective_role_priority :
    (∀ g roles cid, computeMainRole g roles cid = .PLATFORM_ADMIN ↔
      g = some .PLATFORM_ADMIN)
    ∧ (∀ g roles cid, computeMainRole g roles cid = .SUPPLIER_OWNER ↔
      g ≠ some .PLATFORM_ADMIN ∧ ∃ e ∈ roles, e.role = .OWNER)
    ∧ (∀ g roles cid, computeMainRole g roles cid = .SUPPLIER_MANAGER ↔
      g ≠ some .PLATFORM_ADMIN ∧ (∀ e ∈ roles, e.role ≠ .OWNER)
        ∧ ∃ e ∈ roles, e.role = .MANAGER)
    ∧ (∀ g roles cid, computeMainRole g roles cid = .SUPPLIER_SALES ↔
      g ≠ some .PLATFORM_ADMIN ∧ (∀ e ∈ roles, e.role ≠ .OWNER)
        ∧ (∀ e ∈ roles, e.role ≠ .MANAGER) ∧ ∃ e ∈ roles, e.role = .SALES)
    ∧ (∀ g roles cid, computeMainRole g roles cid = .CONSUMER ↔
      g ≠ some .PLATFORM_ADMIN ∧ (∀ e ∈ roles, e.role ≠ .OWNER)
        ∧ (∀ e ∈ roles, e.role ≠ .MANAGER) ∧ (∀ e ∈ roles, e.role ≠ .SALES)
        ∧ cid.isSome = true)
    ∧ (∀ (sid c : Nat), computeMainRole none [⟨sid, .SALES⟩] (some c) = .SUPPLIER_SALES) := by
  refine ⟨?_, ?_, ?_, ?_, ?_, fun sid c => rfl⟩ <;>
    intro g roles cid <;>
    unfold computeMainRole <;>
    split_ifs with h₁ h₂ h₃ h₄ h₅ <;>
    simp_all [List.any_eq_true, List.any_eq_false]

/-- Witness: the dual-identity instance concretely — a user with a consumer id
and a SALES role at supplier 9 derives SUPPLIER_SALES. -/
theorem effective_role_priority_witness :
    computeMainRole none [⟨9, .SALES⟩] (some 77) = .SUPPLIER_SALES :=
  effective_role_priority.2.2.2.2.2 9 77

/-! ## C9 — login failure message (mobile LoginScreen.tsx) -/

/-- The distinguishable reasons a login call can fail on the backend side;
`handleLogin` catches all of them alike. -/
inductive LoginFailure where
  | emailNotFound
  | wrongPassword
  | accountInactive
  | networkError
deriving DecidableEq, Repr

/-- Outcome of the `login(email, password)` call awaited by `handleLogin`. -/
inductive LoginOutcome where
  | success (token : String) (u : User)
  | failure (e : LoginFailure)

/-- The error displayed by `handleLogin` in LoginScreen.tsx: empty fields show
the enter-credentials prompt before any call; a successful login shows
nothing; any caught error shows the one generic incorrect-credentials
message, whatever the error was. -/
def handleLoginDisplayedError (email password : String)
    (outcome : LoginOutcome) : Option String :=
  if email = "" || password = "" then some "auth.enterCredentials"
  else
    match outcome with
    | .success _ _ => none
    | .failure _ => some "auth.incorrectCredentials"

/-- C9: for any non-empty submitted credentials, every failed login shows the
same generic incorrect-credentials message — in particular the display is
identical whether the email exists (wrong password) or not (email not
found), so the failure output reveals nothing about account existence. -/
theorem login_failure_message_uniform :
    ∀ (email password : String) (e₁ e₂ : LoginFailure),
      email ≠ "" → password ≠ "" →
      handleLoginDisplayedError email password (.failure e₁)
          = some "auth.incorrectCredentials"
      ∧ handleLoginDisplayedError email password (.failure e₁)
          = handleLoginDisplayedError email password (.failure e₂) := by
  intro email password e₁ e₂ hemail hpassword
  unfold handleLoginDisplayedError
  rw [if_neg (by simp [hemail, hpassword])]
  exact ⟨rfl, rfl⟩

/-- Witness: an unknown email and a wrong password for a known email display
the same generic message. -/
theorem login_failure_message_uniform_witness :
    handleLoginDisplayedError "user@example.com" "pw123" (.failure .emailNotFound)
        = some "auth.incorrectCredentials"
    ∧ handleLoginDisplayedError "user@example.com" "pw123" (.failure .emailNotFound)
        = handleLoginDisplayedError "user@example.com" "pw123" (.failure .wrongPassword) :=
  login_failure_message_uniform "user@example.com" "pw123" .emailNotFound .wrongPassword
    (by decide) (by decide)

/-! ## C10 — consumer registration flow (mobile/src/api/auth.ts, authStorage.ts) -/

/-- The `LoginResponse` interface from mobile/src/types/api.ts. -/
structure LoginResponse where
  access_token : String
  token_type : String
  user : User
deriving DecidableEq, Repr

/-- The AsyncStorage auth slots written by `saveAuth` under the
`scp_access_token` and `scp_user` keys. -/
structure AuthStorage where
  token : Option String
  user : Option User
deriving DecidableEq, Repr

/-- Failure of a backend call as seen by the client. -/
inductive ApiError where
  | httpError (status : Nat)
  | invalidValue
deriving DecidableEq, Repr

/-- The backend responses the `registerConsumer` flow can observe, one per
awaited call in order: `register`, the first `login`, the
`POST /consumers` profile creation, and the re-`login`. -/
structure RegisterEnv where
  registerResult : Except ApiError Unit
  firstLogin : Except ApiError LoginResponse
  createConsumer : Except ApiError Unit
  secondLogin : Except ApiError LoginResponse

/-- `saveAuth` from mobile/src/api/authStorage.ts: rejects an empty,
`undefined` or `null` token string, otherwise stores token and user. -/
def saveAuth (accessToken : String) (u : User) : Except ApiError AuthStorage :=
  if accessToken = "" || accessToken = "undefined" || accessToken = "null" then
    .error .invalidValue
  else .ok { token := some accessToken, user := some u }

/-- `registerConsumer` from mobile/src/api/auth.ts: register, login, save the
session to storage, then try to create the consumer profile; on success
re-login and return the refreshed session; on failure of the profile step
the error is caught, logged, and the pre-profile login response is
returned as a success, with the session already saved. -/
def registerConsumer (env : RegisterEnv) (st : AuthStorage) :
    Except ApiError LoginResponse × AuthStorage :=
  match env.registerResult with
  | .error e => (.error e, st)
  | .ok _ =>
    match env.firstLogin with
    | .error e => (.error e, st)
    | .ok lr =>
      match saveAuth lr.access_token lr.user with
      | .error e => (.error e, st)
      | .ok st₂ =>
        match env.createConsumer with
        | .ok _ =>
          match env.secondLogin with
          | .error e => (.error e, st₂)
          | .ok lr₂ => (.ok lr₂, st₂)
        | .error _ => (.ok lr, st₂)

/-- C10: when the user account is created and logged in but the
consumer-profile creation then fails, `registerConsumer` swallows the
error and still returns the pre-profile login response as a success, with
the token already saved to storage and the returned user carrying no
consumer id — a persistent account without a consumer profile. -/
theorem register_consumer_swallows_profile_failure :
    ∀ (env : RegisterEnv) (st : AuthStorage) (lr : LoginResponse) (e : ApiError),
      env.registerResult = .ok () →
      env.firstLogin = .ok lr →
      lr.access_token ≠ "" → lr.access_token ≠ "undefined" → lr.access_token ≠ "null" →
      env.createConsumer = .error e →
      lr.user.consumer_id = none →
      registerConsumer env st
          = (.ok lr, { token := some lr.access_token, user := some lr.user })
      ∧ ∃ returned, (registerConsumer env st).1 = .ok returned
          ∧ returned.user.consumer_id = none := by
  intro env st lr e hreg hlogin ht₁ ht₂ ht₃ hfail hcid
  have hsave : saveAuth lr.access_token lr.user
      = .ok { token := some lr.access_token, user := some lr.user } := by
    unfold saveAuth
    rw [if_neg (by simp [ht₁, ht₂, ht₃])]
  have hmain : registerConsumer env st
      = (.ok lr, { token := some lr.access_token, user := some lr.user }) := by
    simp only [registerConsumer, hreg, hlogin, hsave, hfail]
  exact ⟨hmain, lr, by rw [hmain], hcid⟩

/-- A fresh account without a consumer profile. -/
def freshAccountUser : User :=
  { id := 50, email := "new@example.com", full_name := "New User", is_active := true
    global_role := none, supplier_roles := [], consumer_id := none
    main_role := .USER }

/-- The login response for the fresh account. -/
def freshLoginResponse : LoginResponse :=
  { access_token := "tok50", token_type := "bearer", user := freshAccountUser }

/-- A run in which the consumer-profile creation fails with HTTP 500. -/
def profileFailureEnv : RegisterEnv :=
  { registerResult := .ok (), firstLogin := .ok freshLoginResponse
    createConsumer := .error (.httpError 500)
    secondLogin := .error (.httpError 401) }

/-- Witness: with the profile step failing with HTTP 500, the flow still ends
as a success carrying the consumer-less user, and the token is in storage. -/
theorem register_consumer_swallows_profile_failure_witness :
    registerConsumer profileFailureEnv { token := none, user := none }
        = (.ok freshLoginResponse, { token := some "tok50", user := some freshAccountUser })
    ∧ ∃ returned,
        (registerConsumer profileFailureEnv { token := none, user := none }).1
            = .ok returned
        ∧ returned.user.consumer_id = none :=
  register_consumer_swallows_profile_failure profileFailureEnv
    { token := none, user := none } freshLoginResponse (.httpError 500)
    rfl rfl (by decide) (by decide) (by decide) rfl rfl

end SCP
